import Mathlib

/-!
Verification of the relocation engine, integrity checker and backup registry of
free-up-space-macos.py against its specification.

The Python code is shallowly embedded.  Filesystem queries made by the code
(path.exists(), path.stat().st_size, reading Contents/Info.plist, ...) are
modelled by an abstract per-path view (`PathView`) in which every query either
returns a value or raises, mirroring the try/except structure of the source.
Subprocess-based strategies of `_move_app_robustly` are modelled by an oracle
of their outcomes (`MoveEnv`) and the function is translated into one producing
the ordered list of filesystem effects it performs (`MoveEvent`).  Machine
integers do not overflow in the source (Python has arbitrary precision), so
sizes are `Nat`; the single floating-point expression, the one-percent
tolerance `source_size * 0.01` in `_verify_app_copy`, is modelled exactly as
the rational bound `100 * size_diff > source_size`.
-/

deriving instance DecidableEq for Except

namespace FreeUpSpace

/-- Abstract view of one filesystem path (an app-bundle root), recording the
outcome of every query the Python code can make against it.  A field of type
`Except Unit v` models a query that can raise: `Except.error ()` is a raised
`OSError`/`PermissionError`/..., `Except.ok x` a normal return of `x`. -/
structure PathView where
  /-- outcome of `path.exists()` -/
  exists_q : Except Unit Bool
  /-- outcome of `path.is_symlink()` -/
  is_symlink_q : Except Unit Bool
  /-- outcome of `path.stat().st_size`: the size of the root entry itself,
      not of the whole tree -/
  stat_size : Except Unit Nat
  /-- outcome of `(path / "Contents").exists()` -/
  contents_exists : Except Unit Bool
  /-- outcome of `(path / "Contents" / "Info.plist").exists()` -/
  info_exists : Except Unit Bool
  /-- outcome of `(path / "Contents" / "Info.plist").stat().st_size` -/
  info_stat_size : Except Unit Nat
  /-- outcome of reading the bytes of `Contents/Info.plist` -/
  info_content : Except Unit (List Nat)
  /-- outcome of listing `f.stat().st_size` for every regular file `f` under
      the tree, as enumerated by `path.rglob("*")` filtered by `f.is_file()`;
      the total tree size used by `_verify_app_copy` is the sum of this list -/
  file_sizes : Except Unit (List Nat)
deriving DecidableEq, Repr

/-- Python `abs(a - b)` for the two sizes, over `Nat`. -/
def natDiff (a b : Nat) : Nat := if b ≤ a then a - b else b - a

/-- Does an `Except`-modelled query succeed? -/
def isOkB {α : Type} : Except Unit α → Bool
  | .ok _ => true
  | .error _ => false

/-- Embedding of `SpaceManager._verify_app_copy` (src/free-up-space-macos.py,
lines 991-1025).  Returns False when the destination does not exist, when
either bundle lacks `Contents/Info.plist` (source queried first, Python
short-circuit), or when the total regular-file sizes differ by more than one
percent of the source total; any raised exception also yields False via the
enclosing `except`.  The float test `size_diff > source_size * 0.01` is
modelled exactly as `100 * size_diff > source_size`. -/
def verify_app_copy (source destination : PathView) : Bool :=
  match destination.exists_q with
  | .error _ => false
  | .ok false => false
  | .ok true =>
    match source.info_exists with
    | .error _ => false
    | .ok false => false
    | .ok true =>
      match destination.info_exists with
      | .error _ => false
      | .ok false => false
      | .ok true =>
        match source.file_sizes with
        | .error _ => false
        | .ok sfs =>
          match destination.file_sizes with
          | .error _ => false
          | .ok dfs =>
            let source_size := sfs.sum
            let dest_size := dfs.sum
            let size_diff := natDiff source_size dest_size
            if 100 * size_diff > source_size then false else true

/-- Embedding of `SpaceManager._is_symlink_or_alias` (src/free-up-space-macos.py,
lines 1027-1051).  True when the path is a symlink, when the stat size of the
root entry itself is below 1000 bytes, when the `Contents` directory or
`Contents/Info.plist` is missing, or when the manifest stat size is below 100
bytes; any raised exception yields True ("if we cannot check, assume it is
problematic").  Note that the size test reads `app_path.stat().st_size`, the
root entry, not the summed tree size. -/
def is_symlink_or_alias (p : PathView) : Bool :=
  match p.is_symlink_q with
  | .error _ => true
  | .ok true => true
  | .ok false =>
    match p.stat_size with
    | .error _ => true
    | .ok sz =>
      if sz < 1000 then true
      else
        match p.contents_exists with
        | .error _ => true
        | .ok false => true
        | .ok true =>
          match p.info_exists with
          | .error _ => true
          | .ok false => true
          | .ok true =>
            match p.info_stat_size with
            | .error _ => true
            | .ok isz => if isz < 100 then true else false

/-- Embedding of `SpaceManager._apps_are_identical` (src/free-up-space-macos.py,
lines 792-814).  Checks destination existence, equality of the two root stat
sizes (source queried first), presence of both manifests (short-circuit), and
byte equality of the manifest contents; any raised exception yields False. -/
def apps_are_identical (source_path dest_path : PathView) : Bool :=
  match dest_path.exists_q with
  | .error _ => false
  | .ok false => false
  | .ok true =>
    match source_path.stat_size with
    | .error _ => false
    | .ok ss =>
      match dest_path.stat_size with
      | .error _ => false
      | .ok ds =>
        if ss ≠ ds then false
        else
          match source_path.info_exists with
          | .error _ => false
          | .ok false => false
          | .ok true =>
            match dest_path.info_exists with
            | .error _ => false
            | .ok false => false
            | .ok true =>
              match source_path.info_content with
              | .error _ => false
              | .ok sc =>
                match dest_path.info_content with
                | .error _ => false
                | .ok dc => decide (sc = dc)

/-- Filesystem consistency for a `PathView`: `pathlib.Path.exists()` is
implemented by calling `stat`, so `exists()` returns True exactly when
`stat()` succeeds.  Views violating this do not arise from a real
filesystem. -/
def WFPath (p : PathView) : Prop :=
  p.exists_q = Except.ok true ↔ isOkB p.stat_size = true

instance : DecidablePred WFPath := fun p =>
  inferInstanceAs (Decidable ((p.exists_q = Except.ok true) ↔ (isOkB p.stat_size = true)))

/-! Backup registry: `find_backup_folders` (src/free-up-space-macos.py, lines
719-730).  Directory-entry names are `List Char` (Python compares strings by
code points, which is exactly lexicographic comparison of the char lists). -/

/-- Python string `<` on names: code-point lexicographic order. -/
def lexLtB : List Char → List Char → Bool
  | [], [] => false
  | [], _ :: _ => true
  | _ :: _, [] => false
  | a :: as, b :: bs => if a < b then true else if b < a then false else lexLtB as bs

/-- Python `str.startswith`: does the first list start with the second? -/
def startsWithChars : List Char → List Char → Bool
  | _, [] => true
  | [], _ :: _ => false
  | a :: as, b :: bs => a = b && startsWithChars as bs

/-- One entry of `volume.iterdir()`: its name and whether `item.is_dir()`. -/
structure DirEntry where
  name : List Char
  isDir : Bool
deriving DecidableEq, Repr

/-- Descending name order, the sort key of `sorted(..., key=lambda x: x.name,
reverse=True)`: `nameGe a b` holds when `a.name` is not lexically below
`b.name`. -/
def nameGe (a b : DirEntry) : Prop := lexLtB a.name b.name = false

instance : DecidableRel nameGe := fun a b =>
  inferInstanceAs (Decidable (lexLtB a.name b.name = false))

/-- The fixed backup folder name marker `"AppBackup_"`. -/
def backupMarker : List Char := "AppBackup_".data

/-- Embedding of `SpaceManager.find_backup_folders`: keep the directory
entries whose names start with `"AppBackup_"` and sort them newest-first,
i.e. by descending name. -/
def find_backup_folders (entries : List DirEntry) : List DirEntry :=
  List.insertionSort nameGe
    (entries.filter fun e => e.isDir && startsWithChars e.name backupMarker)

/-! Relocation engine: `_move_app_robustly` (src/free-up-space-macos.py, lines
894-989).  The four strategies are driven by opaque operations (shutil.move,
shutil.copytree, rsync, ditto) whose outcomes on the given source and
destination are supplied by a `MoveEnv` oracle; the function is translated
into one that also returns the ordered list of effects it performs. -/

/-- The four relocation strategies, in source order. -/
inductive Strategy
  | direct
  | copyDelete
  | mirrorSync
  | attrCopy
deriving DecidableEq, Repr

/-- One observable effect of `_move_app_robustly`. -/
inductive MoveEvent
  /-- the strategy was attempted (its move/copy operation was invoked) -/
  | attempt : Strategy → MoveEvent
  /-- `_verify_app_copy` ran after this strategy's copy and returned the flag -/
  | verified : Strategy → Bool → MoveEvent
  /-- `shutil.rmtree(source)` ran as part of this strategy's commit -/
  | removeSource : Strategy → MoveEvent
  /-- `shutil.rmtree(destination, ignore_errors=True)` ran to discard this
      strategy's partial copy -/
  | removeDest : Strategy → MoveEvent
deriving DecidableEq, Repr

/-- Outcomes of the opaque operations for one (source, destination) pair:
whether `shutil.move` succeeds, whether `shutil.copytree` completes, what
`_verify_app_copy` returns after each kind of copy, and whether each of the
rsync and ditto subprocesses completes within its timeout with exit code 0
(false covers a non-zero exit, a timeout and a raised exception alike). -/
structure MoveEnv where
  directOk : Bool
  copytreeOk : Bool
  copyVerifyOk : Bool
  rsyncExitZero : Bool
  rsyncVerifyOk : Bool
  dittoExitZero : Bool
  dittoVerifyOk : Bool
deriving DecidableEq, Repr

/-- Embedding of `SpaceManager._move_app_robustly`: the ordered effect trace
and the returned bool.  Method 1 is `shutil.move`; method 2 is
`shutil.copytree` + verify + remove source on success, remove destination and
fall through on verification failure; method 3 is rsync with a 5-minute
timeout, removing the destination only on verification failure (a failed or
timed-out rsync raises and falls through with no cleanup); method 4 is ditto
with the same verify/commit/cleanup logic, and when it too fails the function
returns False. -/
def move_app_robustly (env : MoveEnv) : List MoveEvent × Bool :=
  if env.directOk then ([.attempt .direct], true)
  else
    let t1 : List MoveEvent := [.attempt .direct]
    if env.copytreeOk && env.copyVerifyOk then
      (t1 ++ [.attempt .copyDelete, .verified .copyDelete true,
        .removeSource .copyDelete], true)
    else
      let t2 := t1 ++
        (if env.copytreeOk then
          [MoveEvent.attempt .copyDelete, .verified .copyDelete false,
            .removeDest .copyDelete]
        else [MoveEvent.attempt .copyDelete])
      if env.rsyncExitZero && env.rsyncVerifyOk then
        (t2 ++ [.attempt .mirrorSync, .verified .mirrorSync true,
          .removeSource .mirrorSync], true)
      else
        let t3 := t2 ++
          (if env.rsyncExitZero then
            [MoveEvent.attempt .mirrorSync, .verified .mirrorSync false,
              .removeDest .mirrorSync]
          else [MoveEvent.attempt .mirrorSync])
        if env.dittoExitZero && env.dittoVerifyOk then
          (t3 ++ [.attempt .attrCopy, .verified .attrCopy true,
            .removeSource .attrCopy], true)
        else
          let t4 := t3 ++
            (if env.dittoExitZero then
              [MoveEvent.attempt .attrCopy, .verified .attrCopy false,
                .removeDest .attrCopy]
            else [MoveEvent.attempt .attrCopy])
          (t4, false)

/-- The strategies attempted by `_move_app_robustly`, in order. -/
def attemptedStrategies (env : MoveEnv) : List Strategy :=
  (move_app_robustly env).1.filterMap fun e =>
    match e with
    | .attempt s => some s
    | _ => none

/-- Ordered containment of one event list in another (subsequence check),
used to state that one effect happens only after another. -/
def isSubchain : List MoveEvent → List MoveEvent → Bool
  | [], _ => true
  | _ :: _, [] => false
  | a :: as, b :: bs => if a = b then isSubchain as bs else isSubchain (a :: as) bs

/-! Batch move loop: `move_apps_to_volume` (src/free-up-space-macos.py, lines
450-586) and `_show_manual_move_instructions` (lines 610-647). -/

/-- What the operator types at the manual-move input of
`_show_manual_move_instructions`. -/
inductive OperatorResponse
  | pressedEnter
  | typedSkip
  | interrupted
deriving DecidableEq, Repr

/-- What happened at the manual-move step. -/
inductive ManualOutcome
  | acknowledged
  | skipped
  | cancelled
deriving DecidableEq, Repr

/-- Embedding of `SpaceManager._show_manual_move_instructions`: it prints the
instructions, blocks on the operator's input and returns in every branch
(`return` / `return` / `return`); the Python function returns None, so the
outcome is discarded by its caller.  The returned `ManualOutcome` records
which branch ran. -/
def show_manual_move_instructions (resp : OperatorResponse) : ManualOutcome :=
  match resp with
  | .pressedEnter => .acknowledged
  | .typedSkip => .skipped
  | .interrupted => .cancelled

/-- Oracle for one application processed by `move_apps_to_volume`: whether it
is in the protected set, the strategy outcomes for `_move_app_robustly`, what
the operator types at the manual step, whether the destination exists under
the intended name once the manual step is over, and the answer to the
"Continue with remaining applications?" prompt.  The in-use, restricted-flag,
xattr, chmod and chown steps of the loop are logged best-effort operations
with no effect on control flow and are omitted. -/
structure MoveItem where
  isProtected : Bool
  moveEnv : MoveEnv
  response : OperatorResponse
  destExistsAfterManual : Bool
  continueBatch : Bool
deriving DecidableEq, Repr

/-- Loop body of `move_apps_to_volume` over the remaining items, carrying the
next index and the accumulated `failed_apps` (as indices).  A protected app
is appended to the failed list and skipped; a successful `_move_app_robustly`
leaves the failed list unchanged; otherwise the app is appended to the failed
list, the manual instructions run (their outcome is discarded, exactly as the
source discards the None return), and the operator is asked whether to
continue - declining returns `(False, failed_apps)` immediately.  The
exception handler of the source loop behaves identically to the failure
branch (append, manual instructions, continue prompt). -/
def moveAppsGo : List MoveItem → Nat → List Nat → Bool × List Nat
  | [], _, failed => (failed.isEmpty, failed)
  | item :: rest, i, failed =>
    if item.isProtected then moveAppsGo rest (i + 1) (failed ++ [i])
    else if (move_app_robustly item.moveEnv).2 then moveAppsGo rest (i + 1) failed
    else
      let failed' := failed ++ [i]
      let _ := show_manual_move_instructions item.response
      if item.continueBatch then moveAppsGo rest (i + 1) failed'
      else (false, failed')

/-- Embedding of `SpaceManager.move_apps_to_volume`: returns
`(len(failed_apps) == 0, failed_apps)` unless the operator declines to
continue after a failure, in which case it returns `(False, failed_apps)`. -/
def move_apps_to_volume (items : List MoveItem) : Bool × List Nat :=
  moveAppsGo items 0 []

/-- A tree on which all four strategies fail, the operator presses Enter at
the manual step, and the destination does exist under the intended name
afterwards. -/
def stuckItem : MoveItem :=
  { isProtected := false
    moveEnv := ⟨false, false, false, false, false, false, false⟩
    response := .pressedEnter
    destExistsAfterManual := true
    continueBatch := true }

/-! Restore loop: `restore_apps_from_backup` (src/free-up-space-macos.py,
lines 1376-1492), per-tree exception propagation. -/

/-- Which exception, if any, escapes the handling of one tree inside the
restore loop's try block. -/
inductive RestoreExc
  | fileNotFound
  | permission
  | other
deriving DecidableEq, Repr

/-- One tree of the restore batch, summarised by the exception (if any) its
handling raises.  The internal skip paths of the body (missing source,
declined overwrite, failed removal, failed manual copy) all end in `continue`
within the same tree and do not affect which other trees are handled. -/
structure RestoreItem where
  exc : Option RestoreExc
deriving DecidableEq, Repr

/-- Restore loop over the remaining trees, carrying the next index and the
indices already attempted.  `except FileNotFoundError` and the generic
`except Exception` print and `continue`; `except PermissionError` does
`return False`, aborting the remaining batch. -/
def restoreGo : List RestoreItem → Nat → List Nat → List Nat × Bool
  | [], _, att => (att, true)
  | item :: rest, i, att =>
    match item.exc with
    | none => restoreGo rest (i + 1) (att ++ [i])
    | some RestoreExc.fileNotFound => restoreGo rest (i + 1) (att ++ [i])
    | some RestoreExc.other => restoreGo rest (i + 1) (att ++ [i])
    | some RestoreExc.permission => (att ++ [i], false)

/-- Embedding of the per-tree loop of `SpaceManager.restore_apps_from_backup`:
the indices of the trees whose handling was attempted, and whether the loop
ran to completion (False means it was aborted by a PermissionError). -/
def restore_apps_from_backup (items : List RestoreItem) : List Nat × Bool :=
  restoreGo items 0 []

/-- A batch whose first tree raises PermissionError and whose second tree
would restore cleanly. -/
def permBatch : List RestoreItem := [⟨some RestoreExc.permission⟩, ⟨none⟩]

/-! Concrete path views and environments used as witnesses and
counterexamples. -/

/-- A healthy source bundle: 1000 bytes of regular files, manifest present. -/
def vSrc : PathView :=
  ⟨.ok true, .ok false, .ok 4096, .ok true, .ok true, .ok 300, .ok [1, 2],
    .ok [600, 400]⟩

/-- A verified copy of `vSrc`: five bytes smaller, well within one percent. -/
def vDst : PathView :=
  ⟨.ok true, .ok false, .ok 4096, .ok true, .ok true, .ok 300, .ok [1, 2],
    .ok [600, 395]⟩

/-- A destination that does not exist. -/
def vDstMissing : PathView :=
  ⟨.ok false, .ok false, .error (), .ok false, .ok false, .error (), .error (),
    .ok []⟩

/-- A genuine (non-symlink) tree whose regular files total 2200 bytes and
whose manifest is 200 bytes, but whose root directory entry has a stat size
of only 64 bytes - typical for a real directory inode. -/
def aliasSizedTree : PathView :=
  ⟨.ok true, .ok false, .ok 64, .ok true, .ok true, .ok 200, .ok [13],
    .ok [2000, 200]⟩

/-- A path whose root stat query raises. -/
def errStatPath : PathView :=
  ⟨.ok false, .ok false, .error (), .ok true, .ok true, .ok 200, .ok [13],
    .ok [2000]⟩

/-- Two well-formed, identical-looking bundles for the symmetry witness. -/
def idA : PathView :=
  ⟨.ok true, .ok false, .ok 500, .ok true, .ok true, .ok 120, .ok [7, 8],
    .ok [400, 100]⟩

/-- Second bundle of the symmetry witness: same root stat size and manifest
bytes as `idA`. -/
def idB : PathView :=
  ⟨.ok true, .ok false, .ok 500, .ok true, .ok true, .ok 120, .ok [7, 8],
    .ok [400, 99]⟩

/-- Direct move fails, copytree completes and its copy verifies. -/
def cdSuccEnv : MoveEnv := ⟨false, true, true, false, false, false, false⟩

/-- Direct move fails, copytree completes but verification fails. -/
def cdFailEnv : MoveEnv := ⟨false, true, false, false, false, false, false⟩

/-- Direct and copytree fail, the rsync subprocess fails (non-zero exit or
timeout), ditto also fails. -/
def rsyncFailEnv : MoveEnv := ⟨false, false, false, false, false, false, false⟩

/-- Direct and copytree fail, rsync exits 0 and the copy verifies. -/
def msOkEnv : MoveEnv := ⟨false, false, false, true, true, false, false⟩

/-- Direct and copytree fail, rsync exits 0 but verification fails. -/
def msVerifyFailEnv : MoveEnv := ⟨false, false, false, true, false, false, false⟩

/-! Theorems. -/

/-- Characterization of `_verify_app_copy`: it returns True exactly when the
destination exists, both manifests exist, both tree listings succeed and the
size difference is at most one percent of the source total. -/
theorem verify_app_copy_eq_true_iff (s d : PathView) :
    verify_app_copy s d = true ↔
      (d.exists_q = Except.ok true ∧ s.info_exists = Except.ok true ∧
        d.info_exists = Except.ok true ∧
        ∃ sfs dfs, s.file_sizes = Except.ok sfs ∧ d.file_sizes = Except.ok dfs ∧
          100 * natDiff sfs.sum dfs.sum ≤ sfs.sum) := by
  unfold verify_app_copy
  rcases h1 : d.exists_q with u | b1
  · simp [h1]
  · cases b1
    · simp [h1]
    · rcases h2 : s.info_exists with u | b2
      · simp [h1, h2]
      · cases b2
        · simp [h1, h2]
        · rcases h3 : d.info_exists with u | b3
          · simp [h1, h2, h3]
          · cases b3
            · simp [h1, h2, h3]
            · rcases h4 : s.file_sizes with u | sfs
              · simp [h1, h2, h3, h4]
              · rcases h5 : d.file_sizes with u | dfs
                · simp [h1, h2, h3, h4, h5]
                · simp only [h1, h2, h3, h4, h5, Except.ok.injEq, true_and]
                  by_cases h6 : 100 * natDiff sfs.sum dfs.sum > sfs.sum
                  · simp only [h6, if_true]
                    constructor
                    · intro h; exact absurd h (by simp)
                    · rintro ⟨sfs', dfs', rfl, rfl, hle⟩
                      omega
                  · simp only [h6, if_false]
                    constructor
                    · intro _
                      exact ⟨sfs, dfs, rfl, rfl, by omega⟩
                    · intro _; trivial

/-- Claim C1: for every source and destination path, `_verify_app_copy`
returns true if and only if the destination exists, both source and
destination contain `Contents/Info.plist`, and the absolute difference of the
total regular-file byte sizes is at most one percent of the source total
(float tolerance modelled exactly); in particular it returns false whenever
the destination is missing. -/
theorem verify_app_copy_spec (source destination : PathView) :
    (destination.exists_q ≠ Except.ok true →
      verify_app_copy source destination = false)
    ∧ (∀ sie die sfs dfs,
        source.info_exists = Except.ok sie →
        destination.info_exists = Except.ok die →
        source.file_sizes = Except.ok sfs →
        destination.file_sizes = Except.ok dfs →
        (verify_app_copy source destination = true ↔
          (destination.exists_q = Except.ok true ∧ sie = true ∧ die = true ∧
            100 * natDiff sfs.sum dfs.sum ≤ sfs.sum))) := by
  constructor
  · intro hne
    cases hv : verify_app_copy source destination
    · rfl
    · exact absurd ((verify_app_copy_eq_true_iff source destination).1 hv).1 hne
  · intro sie die sfs dfs hsi hdi hsf hdf
    rw [verify_app_copy_eq_true_iff]
    constructor
    · rintro ⟨he, hsi', hdi', sfs', dfs', hsf', hdf', hle⟩
      rw [hsi] at hsi'; rw [hdi] at hdi'
      rw [hsf] at hsf'; rw [hdf] at hdf'
      cases hsi'; cases hdi'; cases hsf'; cases hdf'
      exact ⟨he, rfl, rfl, hle⟩
    · rintro ⟨he, rfl, rfl, hle⟩
      exact ⟨he, hsi, hdi, sfs, dfs, hsf, hdf, hle⟩

/-- Witness for claim C1 at concrete bundles: a missing destination is
rejected, and a copy five bytes short of a 1000-byte source verifies. -/
theorem verify_app_copy_spec_witness :
    verify_app_copy vSrc vDstMissing = false ∧
      (verify_app_copy vSrc vDst = true ↔
        (vDst.exists_q = Except.ok true ∧ true = true ∧ true = true ∧
          100 * natDiff ([600, 400] : List Nat).sum ([600, 395] : List Nat).sum ≤
            ([600, 400] : List Nat).sum)) :=
  ⟨(verify_app_copy_spec vSrc vDstMissing).1 (by decide),
    (verify_app_copy_spec vSrc vDst).2 true true [600, 400] [600, 395]
      rfl rfl rfl rfl⟩

/-- Characterization of `_is_symlink_or_alias`: it returns False exactly when
every query it makes succeeds, the path is not a symlink, the root entry stat
size is at least 1000 bytes, the `Contents` directory and the manifest exist,
and the manifest stat size is at least 100 bytes. -/
theorem is_symlink_or_alias_false_iff (p : PathView) :
    is_symlink_or_alias p = false ↔
      (p.is_symlink_q = Except.ok false ∧
        ∃ sz, p.stat_size = Except.ok sz ∧ 1000 ≤ sz ∧
          p.contents_exists = Except.ok true ∧ p.info_exists = Except.ok true ∧
          ∃ isz, p.info_stat_size = Except.ok isz ∧ 100 ≤ isz) := by
  unfold is_symlink_or_alias
  rcases h1 : p.is_symlink_q with u | b1
  · simp [h1]
  · cases b1
    · rcases h2 : p.stat_size with u | sz
      · simp [h1, h2]
      · by_cases hsz : sz < 1000
        · simp only [h1, h2, if_pos hsz, Except.ok.injEq, true_and]
          constructor
          · intro h; exact absurd h (by simp)
          · rintro ⟨sz', rfl, hge, _⟩
            omega
        · simp only [h1, h2, if_neg hsz, Except.ok.injEq, true_and]
          rcases h3 : p.contents_exists with u | b3
          · simp [h3]
          · cases b3
            · simp [h3]
            · rcases h4 : p.info_exists with u | b4
              · simp [h3, h4]
              · cases b4
                · simp [h3, h4]
                · rcases h5 : p.info_stat_size with u | isz
                  · simp [h3, h4, h5]
                  · by_cases hisz : isz < 100
                    · simp only [h3, h4, h5, if_pos hisz]
                      constructor
                      · intro h; exact absurd h (by simp)
                      · rintro ⟨sz', rfl, _, _, _, isz', hisz', hge⟩
                        rw [Except.ok.injEq] at hisz'
                        omega
                    · simp only [h3, h4, h5, if_neg hisz]
                      constructor
                      · intro _
                        exact ⟨sz, rfl, by omega, trivial, trivial, isz, rfl, by omega⟩
                      · intro _; trivial
    · simp [h1]

/-- Counterexample to claim C2 as stated: `aliasSizedTree` is not a symlink,
its regular files total 2200 bytes (at least 1 KB) and its manifest exists
with 200 bytes (valid), yet `_is_symlink_or_alias` returns true, because the
code compares `app_path.stat().st_size` - the root entry's own size, 64 bytes
here - against 1000, not the total tree size. -/
theorem is_symlink_or_alias_total_size_counterexample :
    aliasSizedTree.is_symlink_q = Except.ok false ∧
      aliasSizedTree.file_sizes = Except.ok [2000, 200] ∧
      1000 ≤ ([2000, 200] : List Nat).sum ∧
      aliasSizedTree.contents_exists = Except.ok true ∧
      aliasSizedTree.info_exists = Except.ok true ∧
      aliasSizedTree.info_stat_size = Except.ok 200 ∧
      is_symlink_or_alias aliasSizedTree = true := by
  decide

/-- Claim C2 (amended): `_is_symlink_or_alias` returns false exactly for a
path that is not a symbolic link, whose root entry stat size (not the total
tree size) is at least 1000 bytes, whose `Contents` directory and manifest
file exist, whose manifest is at least 100 bytes, and on which no filesystem
query raises; equivalently it returns true for a symlink, a root entry below
1000 bytes, a missing `Contents` or manifest, a manifest below 100 bytes, or
any raised query. -/
theorem is_symlink_or_alias_classification (p : PathView) :
    is_symlink_or_alias p = false ↔
      (p.is_symlink_q = Except.ok false ∧
        ∃ sz, p.stat_size = Except.ok sz ∧ 1000 ≤ sz ∧
          p.contents_exists = Except.ok true ∧ p.info_exists = Except.ok true ∧
          ∃ isz, p.info_stat_size = Except.ok isz ∧ 100 ≤ isz) :=
  is_symlink_or_alias_false_iff p

/-- Claim C10: `_is_symlink_or_alias` is fail-safe.  It is total by
construction (it returns a `Bool` for every `PathView`, mirroring the
catch-all `except` of the source), and whenever any of the five filesystem
queries it can perform raises, it returns true: an unreadable tree is
classified as a placeholder, never as valid content. -/
theorem is_symlink_or_alias_failsafe (p : PathView)
    (h : isOkB p.is_symlink_q = false ∨ isOkB p.stat_size = false ∨
      isOkB p.contents_exists = false ∨ isOkB p.info_exists = false ∨
      isOkB p.info_stat_size = false) :
    is_symlink_or_alias p = true := by
  cases hres : is_symlink_or_alias p
  · rcases (is_symlink_or_alias_false_iff p).1 hres with
      ⟨h1, sz, h2, _, h3, h4, isz, h5, _⟩
    rcases h with h | h | h | h | h <;> simp_all [isOkB]
  · rfl

/-- Witness for claim C10: a path whose root stat query raises is classified
as a placeholder. -/
theorem is_symlink_or_alias_failsafe_witness :
    is_symlink_or_alias errStatPath = true :=
  is_symlink_or_alias_failsafe errStatPath (by decide)

/-- Characterization of `_apps_are_identical`: it returns True exactly when
the destination exists, both root stat queries succeed with equal sizes, both
manifests exist, and both manifest reads succeed with equal bytes. -/
theorem apps_are_identical_eq_true_iff (s d : PathView) :
    apps_are_identical s d = true ↔
      (d.exists_q = Except.ok true ∧
        ∃ n, s.stat_size = Except.ok n ∧ d.stat_size = Except.ok n ∧
          s.info_exists = Except.ok true ∧ d.info_exists = Except.ok true ∧
          ∃ c, s.info_content = Except.ok c ∧ d.info_content = Except.ok c) := by
  unfold apps_are_identical
  rcases h1 : d.exists_q with u | b1
  · simp [h1]
  · cases b1
    · simp [h1]
    · rcases h2 : s.stat_size with u | ss
      · simp [h1, h2]
      · rcases h3 : d.stat_size with u | ds
        · simp [h1, h2, h3]
        · by_cases hne : ss ≠ ds
          · simp only [h1, h2, h3, if_pos hne, Except.ok.injEq, true_and]
            constructor
            · intro h; exact absurd h (by simp)
            · rintro ⟨n, rfl, hds, _⟩
              exact absurd hds.symm hne
          · push_neg at hne
            subst hne
            simp only [h1, h2, h3, ne_eq, not_true_eq_false, if_false,
              Except.ok.injEq, true_and]
            rcases h4 : s.info_exists with u | b4
            · simp [h4]
            · cases b4
              · simp [h4]
              · rcases h5 : d.info_exists with u | b5
                · simp [h4, h5]
                · cases b5
                  · simp [h4, h5]
                  · rcases h6 : s.info_content with u | sc
                    · simp [h4, h5, h6]
                    · rcases h7 : d.info_content with u | dc
                      · simp [h4, h5, h6, h7]
                      · simp only [h4, h5, h6, h7]
                        simp [eq_comm]

/-- Claim C7: `_apps_are_identical` is symmetric on well-formed filesystem
views - for every pair of paths on which `exists()` agrees with the success
of `stat()`, swapping the two arguments does not change the answer. -/
theorem apps_are_identical_symm (a b : PathView)
    (ha : WFPath a) (hb : WFPath b) :
    apps_are_identical a b = apps_are_identical b a := by
  have key : ∀ x y : PathView, WFPath x →
      apps_are_identical x y = true → apps_are_identical y x = true := by
    intro x y hx hxy
    rcases (apps_are_identical_eq_true_iff x y).1 hxy with
      ⟨hye, n, hxs, hys, hxi, hyi, c, hxc, hyc⟩
    refine (apps_are_identical_eq_true_iff y x).2
      ⟨hx.mpr ?_, n, hys, hxs, hyi, hxi, c, hyc, hxc⟩
    rw [hxs]; rfl
  cases hab : apps_are_identical a b <;> cases hba : apps_are_identical b a
  · rfl
  · exact absurd (key b a hb hba) (by simp [hab])
  · exact absurd (key a b ha hab) (by simp [hba])
  · rfl

/-- Witness for claim C7 at two concrete well-formed bundles. -/
theorem apps_are_identical_symm_witness :
    apps_are_identical idA idB = apps_are_identical idB idA :=
  apps_are_identical_symm idA idB (by decide) (by decide)

/-- Claim C3: `_move_app_robustly` attempts the strategies in the fixed
order Direct, CopyDelete, MirrorSync, AttrCopy, stopping at the first
success; in particular when Direct and CopyDelete both fail, MirrorSync is
attempted before AttrCopy.  The returned flag is true exactly when some
strategy succeeded. -/
theorem move_strategy_order (env : MoveEnv) :
    attemptedStrategies env =
      (if env.directOk then [Strategy.direct]
      else if env.copytreeOk && env.copyVerifyOk then
        [Strategy.direct, Strategy.copyDelete]
      else if env.rsyncExitZero && env.rsyncVerifyOk then
        [Strategy.direct, Strategy.copyDelete, Strategy.mirrorSync]
      else
        [Strategy.direct, Strategy.copyDelete, Strategy.mirrorSync,
          Strategy.attrCopy])
    ∧ (move_app_robustly env).2 =
      (env.directOk || env.copytreeOk && env.copyVerifyOk ||
        env.rsyncExitZero && env.rsyncVerifyOk ||
        env.dittoExitZero && env.dittoVerifyOk) := by
  obtain ⟨a, b, c, d, e, f, g⟩ := env
  revert a b c d e f g
  decide

/-- Claim C4: in the CopyDelete strategy the source is removed only after
`_verify_app_copy` returns true (the trace contains the verification event
before the removal), and when the post-copy verification fails the partial
destination is removed, the source is left in place, and the engine falls
through to MirrorSync. -/
theorem copy_delete_commit_safety (env : MoveEnv) :
    (MoveEvent.removeSource Strategy.copyDelete ∈ (move_app_robustly env).1 →
      isSubchain
        [MoveEvent.verified Strategy.copyDelete true,
          MoveEvent.removeSource Strategy.copyDelete]
        (move_app_robustly env).1 = true)
    ∧ (env.directOk = false → env.copytreeOk = true →
        env.copyVerifyOk = false →
      isSubchain
        [MoveEvent.verified Strategy.copyDelete false,
          MoveEvent.removeDest Strategy.copyDelete]
        (move_app_robustly env).1 = true
      ∧ MoveEvent.removeSource Strategy.copyDelete ∉ (move_app_robustly env).1
      ∧ Strategy.mirrorSync ∈ attemptedStrategies env) := by
  obtain ⟨a, b, c, d, e, f, g⟩ := env
  revert a b c d e f g
  decide

/-- Witness for claim C4 at concrete strategy outcomes: a verified copytree
commits (verification precedes source removal), and a failed verification
discards the destination, keeps the source and falls through to rsync. -/
theorem copy_delete_commit_safety_witness :
    isSubchain
        [MoveEvent.verified Strategy.copyDelete true,
          MoveEvent.removeSource Strategy.copyDelete]
        (move_app_robustly cdSuccEnv).1 = true
    ∧ (isSubchain
        [MoveEvent.verified Strategy.copyDelete false,
          MoveEvent.removeDest Strategy.copyDelete]
        (move_app_robustly cdFailEnv).1 = true
      ∧ MoveEvent.removeSource Strategy.copyDelete ∉
          (move_app_robustly cdFailEnv).1
      ∧ Strategy.mirrorSync ∈ attemptedStrategies cdFailEnv) :=
  ⟨(copy_delete_commit_safety cdSuccEnv).1 (by decide),
    (copy_delete_commit_safety cdFailEnv).2 rfl rfl rfl⟩

/-- Counterexample to claim C5 as stated: on `rsyncFailEnv` the rsync
invocation fails, the engine falls through to the ditto strategy, yet no
removal of the destination is performed for MirrorSync - the source only
removes the destination after a failed post-rsync verification, never after
a failed or timed-out rsync invocation. -/
theorem rsync_failure_keeps_destination_counterexample :
    rsyncFailEnv.rsyncExitZero = false
    ∧ MoveEvent.removeDest Strategy.mirrorSync ∉ (move_app_robustly rsyncFailEnv).1
    ∧ Strategy.attrCopy ∈ attemptedStrategies rsyncFailEnv := by
  decide

/-- Claim C5 (amended): in the MirrorSync strategy, once it is reached, a
successful rsync (exit code 0) is followed by `_verify_app_copy`; if the
copy verifies the source is removed and the engine reports success, if
verification fails the destination is removed before falling through to
AttrCopy; but on a failed or timed-out rsync invocation the engine falls
through to AttrCopy without removing the destination. -/
theorem mirror_sync_strategy_behavior (env : MoveEnv)
    (hreach : env.directOk = false ∧ (env.copytreeOk && env.copyVerifyOk) = false) :
    (env.rsyncExitZero = true → env.rsyncVerifyOk = true →
      isSubchain
        [MoveEvent.verified Strategy.mirrorSync true,
          MoveEvent.removeSource Strategy.mirrorSync]
        (move_app_robustly env).1 = true
      ∧ (move_app_robustly env).2 = true)
    ∧ (env.rsyncExitZero = true → env.rsyncVerifyOk = false →
      isSubchain
        [MoveEvent.verified Strategy.mirrorSync false,
          MoveEvent.removeDest Strategy.mirrorSync]
        (move_app_robustly env).1 = true
      ∧ MoveEvent.removeSource Strategy.mirrorSync ∉ (move_app_robustly env).1
      ∧ Strategy.attrCopy ∈ attemptedStrategies env)
    ∧ (env.rsyncExitZero = false →
      MoveEvent.removeDest Strategy.mirrorSync ∉ (move_app_robustly env).1
      ∧ MoveEvent.removeSource Strategy.mirrorSync ∉ (move_app_robustly env).1
      ∧ Strategy.attrCopy ∈ attemptedStrategies env) := by
  obtain ⟨a, b, c, d, e, f, g⟩ := env
  revert hreach
  cases a <;> cases b <;> cases c <;> cases d <;> cases e <;> cases f <;>
    cases g <;> decide

/-- Witness for the amended claim C5 at concrete strategy outcomes: a
verified rsync commits, a failed verification discards the destination and
falls through, and a failed rsync falls through with no cleanup. -/
theorem mirror_sync_strategy_behavior_witness :
    (isSubchain
        [MoveEvent.verified Strategy.mirrorSync true,
          MoveEvent.removeSource Strategy.mirrorSync]
        (move_app_robustly msOkEnv).1 = true
      ∧ (move_app_robustly msOkEnv).2 = true)
    ∧ (isSubchain
        [MoveEvent.verified Strategy.mirrorSync false,
          MoveEvent.removeDest Strategy.mirrorSync]
        (move_app_robustly msVerifyFailEnv).1 = true
      ∧ MoveEvent.removeSource Strategy.mirrorSync ∉
          (move_app_robustly msVerifyFailEnv).1
      ∧ Strategy.attrCopy ∈ attemptedStrategies msVerifyFailEnv)
    ∧ (MoveEvent.removeDest Strategy.mirrorSync ∉ (move_app_robustly rsyncFailEnv).1
      ∧ MoveEvent.removeSource Strategy.mirrorSync ∉ (move_app_robustly rsyncFailEnv).1
      ∧ Strategy.attrCopy ∈ attemptedStrategies rsyncFailEnv) :=
  ⟨(mirror_sync_strategy_behavior msOkEnv ⟨rfl, rfl⟩).1 rfl rfl,
    (mirror_sync_strategy_behavior msVerifyFailEnv ⟨rfl, rfl⟩).2.1 rfl rfl,
    (mirror_sync_strategy_behavior rsyncFailEnv ⟨rfl, rfl⟩).2.2 rfl⟩

/-- Indices already recorded in `failed_apps` stay recorded: the batch loop
only ever appends to the failed list. -/
theorem mem_moveAppsGo (items : List MoveItem) :
    ∀ i acc x, x ∈ acc → x ∈ (moveAppsGo items i acc).2 := by
  induction items with
  | nil =>
    intro i acc x hx
    simpa [moveAppsGo] using hx
  | cons item rest ih =>
    intro i acc x hx
    simp only [moveAppsGo]
    cases hp : item.isProtected
    · simp only [hp, Bool.false_eq_true, if_false]
      cases hm : (move_app_robustly item.moveEnv).2
      · simp only [hm, Bool.false_eq_true, if_false]
        cases hc : item.continueBatch
        · simp only [hc, Bool.false_eq_true, if_false]
          simp [hx]
        · simp only [hc, if_true]
          exact ih _ _ _ (by simp [hx])
      · simp only [hm, if_true]
        exact ih _ _ _ hx
    · simp only [hp, if_true]
      exact ih _ _ _ (by simp [hx])

/-- Counterexample to claim C6 as stated: on `stuckItem` all four strategies
fail, the operator presses Enter (acknowledges) at the manual step, and the
destination does exist under the intended name afterwards - yet the batch
loop reports the tree as failed (`(False, [0])`), because the code performs
no re-check of the destination after the acknowledgment and never converts
the tree to a committed one. -/
theorem manual_ack_not_committed_counterexample :
    stuckItem.destExistsAfterManual = true
    ∧ show_manual_move_instructions stuckItem.response = ManualOutcome.acknowledged
    ∧ (move_app_robustly stuckItem.moveEnv).2 = false
    ∧ move_apps_to_volume [stuckItem] = (false, [0]) := by
  decide

/-- Claim C6 (amended): when all four strategies fail for a tree, the batch
loop records the tree as failed before showing the manual instructions, and
the outcome is independent of the operator's response and of whether the
destination exists after the manual step - there is no re-check and no
late commit; the tree always remains in the failed list. -/
theorem manual_escalation_always_failed (item : MoveItem) (rest : List MoveItem)
    (h1 : item.isProtected = false)
    (h2 : (move_app_robustly item.moveEnv).2 = false) :
    0 ∈ (move_apps_to_volume (item :: rest)).2
    ∧ ∀ r d,
        move_apps_to_volume
          ({ item with response := r, destExistsAfterManual := d } :: rest)
          = move_apps_to_volume (item :: rest) := by
  constructor
  · simp only [move_apps_to_volume, moveAppsGo, h1, h2, Bool.false_eq_true,
      if_false, List.nil_append]
    cases hc : item.continueBatch
    · simp
    · simp only [if_true]
      exact mem_moveAppsGo rest 1 [0] 0 (by simp)
  · intro r d
    rfl

/-- Witness for the amended claim C6: the stuck tree of the counterexample
model stays in the failed list for every operator response. -/
theorem manual_escalation_always_failed_witness :
    0 ∈ (move_apps_to_volume [stuckItem]).2
    ∧ ∀ r d,
        move_apps_to_volume
          [{ stuckItem with response := r, destExistsAfterManual := d }]
          = move_apps_to_volume [stuckItem] :=
  manual_escalation_always_failed stuckItem [] rfl rfl

/-- Lexicographic order on char lists is asymmetric. -/
theorem lexLtB_asymm : ∀ a b : List Char, lexLtB a b = true → lexLtB b a = false
  | [], [] => by simp [lexLtB]
  | [], _ :: _ => by simp [lexLtB]
  | _ :: _, [] => by simp [lexLtB]
  | a :: as, b :: bs => by
    simp only [lexLtB]
    intro h
    by_cases hab : a < b
    · simp [asymm hab, hab]
    · by_cases hba : b < a
      · simp [hab, hba] at h
      · simp only [hab, hba, if_false] at h ⊢
        exact lexLtB_asymm as bs h

/-- Lexicographic order on char lists is transitive. -/
theorem lexLtB_trans : ∀ a b c : List Char,
    lexLtB a b = true → lexLtB b c = true → lexLtB a c = true
  | [], [], _ => by simp [lexLtB]
  | [], _ :: _, [] => by simp [lexLtB]
  | [], _ :: _, _ :: _ => by simp [lexLtB]
  | _ :: _, [], _ => by simp [lexLtB]
  | _ :: _, _ :: _, [] => by simp [lexLtB]
  | a :: as, b :: bs, c :: cs => by
    simp only [lexLtB]
    intro h1 h2
    by_cases hab : a < b
    · by_cases hbc : b < c
      · simp [lt_trans hab hbc]
      · by_cases hcb : c < b
        · simp [hab, hbc, hcb] at h2
        · have hbcq : b = c := le_antisymm (not_lt.1 hcb) (not_lt.1 hbc)
          subst hbcq
          simp [hab]
    · by_cases hba : b < a
      · simp [hab, hba] at h1
      · have habq : a = b := le_antisymm (not_lt.1 hba) (not_lt.1 hab)
        subst habq
        simp only [hab, if_neg, if_false] at h1 ⊢
        by_cases hac : a < c
        · simp [hac]
        · simp only [hac, if_false] at h2 ⊢
          by_cases hca : c < a
          · simp [hca] at h2
          · simp only [hca, if_false] at h2 ⊢
            exact lexLtB_trans as bs cs (by simpa [hab] using h1) h2

/-- Char lists that are not lexicographically below each other are equal. -/
theorem lexLtB_eq_of_not_lt : ∀ a b : List Char,
    lexLtB a b = false → lexLtB b a = false → a = b
  | [], [] => by simp
  | [], _ :: _ => by simp [lexLtB]
  | _ :: _, [] => by simp [lexLtB]
  | a :: as, b :: bs => by
    simp only [lexLtB]
    intro h1 h2
    by_cases hab : a < b
    · simp [hab] at h1
    · by_cases hba : b < a
      · simp [hab, hba] at h2
      · have habq : a = b := le_antisymm (not_lt.1 hba) (not_lt.1 hab)
        subst habq
        simp only [hab, if_neg, if_false] at h1 h2
        rw [lexLtB_eq_of_not_lt as bs (by simpa [hab] using h1)
          (by simpa [hab] using h2)]

instance : IsTotal DirEntry nameGe where
  total a b := by
    by_cases h : lexLtB a.name b.name = true
    · exact Or.inr (lexLtB_asymm _ _ h)
    · exact Or.inl (by simpa using h)

instance : IsTrans DirEntry nameGe where
  trans a b c h1 h2 := by
    unfold nameGe at h1 h2 ⊢
    by_contra hac
    replace hac : lexLtB a.name c.name = true := by simpa using hac
    by_cases hba : lexLtB b.name a.name = true
    · exact absurd (lexLtB_trans _ _ _ hba hac) (by simp [h2])
    · have : a.name = b.name :=
        lexLtB_eq_of_not_lt a.name b.name h1 (by simpa using hba)
      rw [this] at hac
      exact absurd hac (by simp [h2])

/-- Claim C8: `find_backup_folders` returns exactly the directory entries of
the volume whose names start with `"AppBackup_"` (a permutation of that
filter), sorted newest-first, i.e. in descending lexical name order; on a
volume holding `AppBackup_20240101_120000` and `AppBackup_20231231_080000`
(plus a non-matching directory and a matching non-directory) it returns the
20240101 folder first and drops the other two entries. -/
theorem find_backup_folders_spec (entries : List DirEntry) :
    List.Sorted nameGe (find_backup_folders entries)
    ∧ (find_backup_folders entries).Perm
        (entries.filter fun e => e.isDir && startsWithChars e.name backupMarker)
    ∧ (find_backup_folders
        [⟨"AppBackup_20231231_080000".data, true⟩,
          ⟨"AppBackup_20240101_120000".data, true⟩,
          ⟨"Movies".data, true⟩,
          ⟨"AppBackup_readme".data, false⟩]).map DirEntry.name
      = ["AppBackup_20240101_120000".data, "AppBackup_20231231_080000".data] := by
  refine ⟨List.sorted_insertionSort nameGe _, List.perm_insertionSort nameGe _, ?_⟩
  decide

/-- When no tree raises PermissionError the restore loop attempts every
remaining tree in order and runs to completion. -/
theorem restoreGo_no_permission (items : List RestoreItem)
    (h : ∀ it ∈ items, it.exc ≠ some RestoreExc.permission) :
    ∀ i acc, restoreGo items i acc = (acc ++ List.range' i items.length, true) := by
  induction items with
  | nil =>
    intro i acc
    simp [restoreGo, List.range']
  | cons item rest ih =>
    intro i acc
    have hrest : ∀ it ∈ rest, it.exc ≠ some RestoreExc.permission :=
      fun it hit => h it (List.mem_cons_of_mem _ hit)
    have hitem := h item (List.mem_cons_self item rest)
    cases hexc : item.exc with
    | none =>
      simp only [restoreGo, hexc, ih hrest, List.length_cons, List.range']
      simp
    | some k =>
      cases k
      · simp only [restoreGo, hexc, ih hrest, List.length_cons, List.range']
        simp
      · exact absurd hexc hitem
      · simp only [restoreGo, hexc, ih hrest, List.length_cons, List.range']
        simp

/-- A PermissionError aborts the restore loop right after the raising tree. -/
theorem restoreGo_permission_aborts (pre : List RestoreItem) :
    ∀ (it : RestoreItem) (post : List RestoreItem),
      (∀ x ∈ pre, x.exc ≠ some RestoreExc.permission) →
      it.exc = some RestoreExc.permission →
      ∀ i acc, restoreGo (pre ++ it :: post) i acc =
        (acc ++ List.range' i (pre.length + 1), false) := by
  induction pre with
  | nil =>
    intro it post _ hit i acc
    simp [restoreGo, hit, List.range']
  | cons p pre' ih =>
    intro it post hpre hit i acc
    have hp := hpre p (List.mem_cons_self p pre')
    have hpre' : ∀ x ∈ pre', x.exc ≠ some RestoreExc.permission :=
      fun x hx => hpre x (List.mem_cons_of_mem _ hx)
    have step : restoreGo ((p :: pre') ++ it :: post) i acc
        = restoreGo (pre' ++ it :: post) (i + 1) (acc ++ [i]) := by
      cases hexc : p.exc with
      | none => simp [restoreGo, hexc]
      | some k =>
        cases k
        · simp [restoreGo, hexc]
        · exact absurd hexc hp
        · simp [restoreGo, hexc]
    rw [step, ih it post hpre' hit]
    simp [List.range', List.append_assoc]

/-- Counterexample to claim C9 as stated: in `permBatch` the first tree's
handling raises PermissionError and the second tree would restore cleanly,
yet the loop returns False immediately and the second tree (index 1) is
never attempted - the abort happens with no operator decision. -/
theorem permission_error_aborts_counterexample :
    permBatch.length = 2
    ∧ restore_apps_from_backup permBatch = ([0], false)
    ∧ 1 ∉ (restore_apps_from_backup permBatch).1 := by
  decide

/-- Claim C9 (amended): inside the restore loop every per-tree
FileNotFoundError and every generic exception is caught and converted into
skipping that tree only, so a batch with no PermissionError attempts every
tree; but a per-tree PermissionError returns False at once, aborting the
remaining unrelated trees without consulting the operator. -/
theorem restore_per_tree_isolation :
    (∀ items : List RestoreItem,
      (∀ it ∈ items, it.exc ≠ some RestoreExc.permission) →
      restore_apps_from_backup items = (List.range items.length, true))
    ∧ (∀ (pre : List RestoreItem) (it : RestoreItem) (post : List RestoreItem),
      (∀ x ∈ pre, x.exc ≠ some RestoreExc.permission) →
      it.exc = some RestoreExc.permission →
      restore_apps_from_backup (pre ++ it :: post) =
        (List.range (pre.length + 1), false)) := by
  constructor
  · intro items h
    unfold restore_apps_from_backup
    rw [restoreGo_no_permission items h 0 []]
    simp [List.range_eq_range']
  · intro pre it post hpre hit
    unfold restore_apps_from_backup
    rw [restoreGo_permission_aborts pre it post hpre hit 0 []]
    simp [List.range_eq_range']

/-- Witness for the amended claim C9 at concrete batches: a batch whose trees
raise only FileNotFoundError and generic exceptions is attempted in full,
while a batch with a PermissionError in the middle stops right after it. -/
theorem restore_per_tree_isolation_witness :
    restore_apps_from_backup
        [⟨none⟩, ⟨some RestoreExc.fileNotFound⟩, ⟨some RestoreExc.other⟩]
      = ([0, 1, 2], true)
    ∧ restore_apps_from_backup
        [⟨none⟩, ⟨some RestoreExc.permission⟩, ⟨none⟩]
      = ([0, 1], false) := by
  constructor
  · have h := restore_per_tree_isolation.1
      [⟨none⟩, ⟨some RestoreExc.fileNotFound⟩, ⟨some RestoreExc.other⟩]
      (by decide)
    simpa using h
  · have h := restore_per_tree_isolation.2
      [⟨none⟩] ⟨some RestoreExc.permission⟩ [⟨none⟩] (by decide) rfl
    simpa using h

end FreeUpSpace
